import Mathlib

/-!
Verification of the chemical-equipment CSV upload pipeline
(Django REST backend: `src/api/views.py`, `src/api/models.py`,
`src/api/serializers.py`).

The embedding below models the upload endpoint (`DatasetViewSet.upload`),
the retention pruning it performs inline, the `summary`, `history` and
`generate_pdf` endpoints, and the two serializers.  Conventions:

* Floating-point readings are modelled exactly as rationals (`ℚ`); the
  pandas/NumPy `NaN` produced by taking the mean of an empty column is
  modelled as `none : Option ℚ`.
* A CSV cell is either text that parses as a float (`Cell.num`) or other
  text (`Cell.str`); this abstracts the textual float grammar, which no
  claim depends on.
* `uploaded_at` timestamps (`auto_now_add`) are modelled as a monotonic
  `Nat` clock carried by the store.
* Django's ORM state (the `EquipmentDataset` and `Equipment` tables plus
  the media-file storage) is an explicit `Store` value threaded through
  the endpoint functions.  Endpoint handlers perform no writes except in
  `upload`, mirroring the source.
* A storage failure while deleting an old dataset's backing file during
  pruning is modelled by a boolean oracle on file references; in the
  source such a failure raises and is caught by the generic
  `except Exception` handler of `upload` (views.py line 114).
-/

namespace EquipmentViz

/-- One CSV data cell as pandas parses it: either text that parses as a
floating-point number (modelled exactly as a rational) or other text. -/
inductive Cell where
  | num (q : ℚ)
  | str (s : String)
  deriving DecidableEq

/-- Whether pandas parses the cell as numeric. -/
def Cell.isNum : Cell → Bool
  | .num _ => true
  | .str _ => false

/-- Numeric value of a cell; `float(cell)` in the source.  Only applied on
columns whose cells are all numeric (guarded by `colMean` succeeding). -/
def Cell.toQ : Cell → ℚ
  | .num q => q
  | .str _ => 0

/-- Textual rendering of a cell, as stored into the `CharField` columns
`name` and `type` of the `Equipment` model. -/
def Cell.render : Cell → String
  | .num q => toString q
  | .str s => s

/-- An uploaded CSV file after pandas parsing: declared filename, header
(column names in file order) and data rows (cells in column order). -/
structure CsvFile where
  filename : String
  header : List String
  rows : List (List Cell)
  deriving DecidableEq

/-- The required columns of views.py line 59, in source order. -/
def requiredCols : List String :=
  ["Equipment Name", "Type", "Flowrate", "Pressure", "Temperature"]

/-- Cell of a parsed row at a named column (`row[c]` on a pandas row). -/
def cellAt (f : CsvFile) (r : List Cell) (c : String) : Cell :=
  r.getD (List.indexOf c f.header) (.str "")

/-- A named column of the parsed frame (`df[c]`). -/
def column (f : CsvFile) (c : String) : List Cell :=
  f.rows.map (fun r => cellAt f r c)

/-- Mean of a column, `float(df[c].mean())` in views.py lines 71..73.
pandas returns `NaN` (here `none`) for an empty column and raises a
`TypeError` (here `.error`) when the column holds non-numeric text,
because such a column is read with object dtype. -/
def colMean (cells : List Cell) : Except String (Option ℚ) :=
  if cells.all Cell.isNum then
    if cells.length = 0 then .ok none
    else .ok (some ((cells.map Cell.toQ).sum / (cells.length : ℚ)))
  else .error "could not convert string to float"

/-- A row of the `EquipmentDataset` table (models.py lines 4..17), with
the storage location of the uploaded file abstracted to `fileRef`. -/
structure Dataset where
  id : Nat
  name : String
  uploadedBy : String
  uploadedAt : Nat
  fileRef : Nat
  totalCount : Nat
  avgFlowrate : Option ℚ
  avgPressure : Option ℚ
  avgTemperature : Option ℚ
  deriving DecidableEq

/-- A row of the `Equipment` table (models.py lines 22..28). -/
structure Equipment where
  datasetId : Nat
  name : String
  type : String
  flowrate : ℚ
  pressure : ℚ
  temperature : ℚ
  deriving DecidableEq

/-- Persistent state: both tables, the set of stored backing files, the
primary-key counter and the monotonic timestamp clock. -/
structure Store where
  datasets : List Dataset
  equipments : List Equipment
  files : List Nat
  nextId : Nat
  clock : Nat
  deriving DecidableEq

/-- The state before any upload. -/
def emptyStore : Store := ⟨[], [], [], 0, 0⟩

/-- Default queryset order of `EquipmentDataset.objects.all()`:
`ordering = ["-uploaded_at"]` (models.py line 17), newest first. -/
def newerEq (a b : Dataset) : Prop := b.uploadedAt ≤ a.uploadedAt

instance : DecidableRel newerEq :=
  fun a b => inferInstanceAs (Decidable (b.uploadedAt ≤ a.uploadedAt))

instance : IsTotal Dataset newerEq :=
  ⟨fun a b => le_total b.uploadedAt a.uploadedAt⟩

instance : IsTrans Dataset newerEq :=
  ⟨fun _ _ _ hab hbc => le_trans hbc hab⟩

/-- `EquipmentDataset.objects.all()`: every dataset row, sorted by upload
timestamp descending per the model Meta ordering. -/
def allDatasets (s : Store) : List Dataset :=
  List.insertionSort newerEq s.datasets

/-- `dataset.equipments.all()`: the equipment rows of one dataset. -/
def equipmentsOf (s : Store) (did : Nat) : List Equipment :=
  s.equipments.filter (fun e => decide (e.datasetId = did))

/-- `self.get_object()` on the dataset queryset: lookup by primary key. -/
def getDataset (s : Store) (did : Nat) : Option Dataset :=
  s.datasets.find? (fun d => decide (d.id = did))

/-- `old_dataset.file.delete()` (views.py line 106): remove the backing
file from storage. -/
def deleteFileFromStore (ref : Nat) (s : Store) : Store :=
  { s with files := s.files.erase ref }

/-- `old_dataset.delete()` (views.py line 107): remove the metadata row;
the `Equipment` rows cascade (`on_delete=models.CASCADE`). -/
def deleteDatasetMeta (did : Nat) (s : Store) : Store :=
  { s with
    datasets := s.datasets.filter (fun d => decide (d.id ≠ did))
    equipments := s.equipments.filter (fun e => decide (e.datasetId ≠ did)) }

/-- Observable deletion events of the pruning loop, in execution order. -/
inductive Ev where
  | delFile (dsId : Nat)
  | delMeta (dsId : Nat)
  deriving DecidableEq

/-- The pruning loop of views.py lines 105..107: for each excess dataset,
delete its backing file, then its metadata row.  `oracle` says whether
deleting a given backing file succeeds; on failure the raised storage
exception aborts the loop, keeping the mutations already performed. -/
def pruneLoop (oracle : Nat → Bool) : List Dataset → Store → Store × List Ev × Bool
  | [], s => (s, [], true)
  | d :: rest, s =>
    if oracle d.fileRef then
      let r := pruneLoop oracle rest (deleteDatasetMeta d.id (deleteFileFromStore d.fileRef s))
      (r.1, .delFile d.id :: .delMeta d.id :: r.2.1, r.2.2)
    else (s, [], false)

/-- Retention step of views.py line 104: `EquipmentDataset.objects.all()[5:]`
enumerated in the default newest-first order, then the deletion loop. -/
def retentionPrune (oracle : Nat → Bool) (s : Store) : Store × List Ev × Bool :=
  pruneLoop oracle ((allDatasets s).drop 5) s

/-- The error responses the upload endpoint can return (views.py lines
49, 52, 63..67, 113, 115), each carrying exactly the data the source
response carries. -/
inductive UploadError where
  | noFile
  | notCsv
  | missingColumns (missing found : List String)
  | emptyData
  | processing (msg : String)
  deriving DecidableEq

/-- Decidable equality for `Except`, needed to evaluate concrete upload
outcomes. -/
def exceptDecEq {ε α : Type} [DecidableEq ε] [DecidableEq α] : DecidableEq (Except ε α)
  | .error e, .error f =>
    if h : e = f then isTrue (h ▸ rfl) else isFalse (fun hh => h (Except.error.inj hh))
  | .error _, .ok _ => isFalse (fun hh => Except.noConfusion hh)
  | .ok _, .error _ => isFalse (fun hh => Except.noConfusion hh)
  | .ok a, .ok b =>
    if h : a = b then isTrue (h ▸ rfl) else isFalse (fun hh => h (Except.ok.inj hh))

instance {ε α : Type} [DecidableEq ε] [DecidableEq α] : DecidableEq (Except ε α) :=
  exceptDecEq

/-- Result of one call of the upload endpoint: HTTP payload, resulting
persistent state, and the deletion events of the pruning step. -/
structure UploadOutcome where
  result : Except UploadError Dataset
  store : Store
  events : List Ev
  deriving DecidableEq

/-- Parsing and validation part of upload (views.py lines 56..73):
`pd.read_csv` raises `EmptyDataError` on a file with no columns; then the
required-columns check; then the three column means. -/
def computeStats (f : CsvFile) : Except UploadError (Option ℚ × Option ℚ × Option ℚ) :=
  if f.header = [] then .error .emptyData
  else
    let missing := requiredCols.filter (fun c => decide (c ∉ f.header))
    if missing = [] then
      match colMean (column f "Flowrate"), colMean (column f "Pressure"),
          colMean (column f "Temperature") with
      | .ok mf, .ok mp, .ok mt => .ok (mf, mp, mt)
      | _, _, _ => .error (.processing "Error processing CSV: could not convert string to float")
    else .error (.missingColumns missing f.header)

/-- One `Equipment` row built from one CSV row (views.py lines 92..99). -/
def rowToEquipment (f : CsvFile) (did : Nat) (r : List Cell) : Equipment :=
  { datasetId := did
    name := (cellAt f r "Equipment Name").render
    type := (cellAt f r "Type").render
    flowrate := (cellAt f r "Flowrate").toQ
    pressure := (cellAt f r "Pressure").toQ
    temperature := (cellAt f r "Temperature").toQ }

/-- Persistence part of upload (views.py lines 76..101): store the file,
create the dataset row, bulk-create the equipment rows. -/
def persist (s : Store) (user : String) (f : CsvFile) (mf mp mt : Option ℚ) :
    Dataset × Store :=
  let ds : Dataset :=
    { id := s.nextId
      name := f.filename
      uploadedBy := user
      uploadedAt := s.clock
      fileRef := s.nextId
      totalCount := f.rows.length
      avgFlowrate := mf
      avgPressure := mp
      avgTemperature := mt }
  (ds,
    { datasets := ds :: s.datasets
      equipments := s.equipments ++ f.rows.map (rowToEquipment f ds.id)
      files := ds.fileRef :: s.files
      nextId := s.nextId + 1
      clock := s.clock + 1 })

/-- Python `name.endswith(".csv")` (views.py line 51), case-sensitive
suffix test on the character sequence. -/
def strEndsWith (s post : String) : Bool :=
  post.data.isSuffixOf s.data

/-- The upload endpoint, `DatasetViewSet.upload` (views.py lines 44..115).
A raised storage exception in the pruning loop reaches the generic
`except Exception` handler of line 114, so the response is then an error
even though the new dataset was already persisted. -/
def upload (s : Store) (user : String) (file? : Option CsvFile) (oracle : Nat → Bool) :
    UploadOutcome :=
  match file? with
  | none => ⟨.error .noFile, s, []⟩
  | some f =>
    if strEndsWith f.filename ".csv" then
      match computeStats f with
      | .error e => ⟨.error e, s, []⟩
      | .ok (mf, mp, mt) =>
        let p := persist s user f mf mp mt
        let pr := retentionPrune oracle p.2
        if pr.2.2 then ⟨.ok p.1, pr.1, pr.2.1⟩
        else ⟨.error (.processing "Error processing CSV: file delete failed"), pr.1, pr.2.1⟩
    else ⟨.error .notCsv, s, []⟩

/-- Python dict update `dist[t] = dist.get(t, 0) + 1` on an insertion-order
association list. -/
def bump : List (String × Nat) → String → List (String × Nat)
  | [], t => [(t, 1)]
  | (k, n) :: rest, t =>
    if k = t then (k, n + 1) :: rest else (k, n) :: bump rest t

/-- Type-distribution dict of views.py lines 124..127 (and 197..199):
count of rows per distinct type string, keys in first-seen order. -/
def typeDistribution (types : List String) : List (String × Nat) :=
  types.foldl bump []

/-- Round-half-to-even to an integer, the rounding Python `round` and
`format` use. -/
def roundHalfEven (q : ℚ) : ℤ :=
  if q - ⌊q⌋ < 1 / 2 then ⌊q⌋
  else if 1 / 2 < q - ⌊q⌋ then ⌊q⌋ + 1
  else if ⌊q⌋ % 2 = 0 then ⌊q⌋ else ⌊q⌋ + 1

/-- Python `round(q, nd)` idealised over exact rationals. -/
def pyRound (nd : Nat) (q : ℚ) : ℚ :=
  (roundHalfEven (q * 10 ^ nd) : ℚ) / 10 ^ nd

/-- Payload of the `summary` endpoint (views.py lines 132..144); averages
rounded to two decimals as on lines 138..140. -/
structure SummaryResponse where
  id : Nat
  name : String
  uploadedAt : Nat
  totalCount : Nat
  avgFlowrate2dp : Option ℚ
  avgPressure2dp : Option ℚ
  avgTemperature2dp : Option ℚ
  typeDistribution : List (String × Nat)
  deriving DecidableEq

/-- The `summary` endpoint (views.py lines 117..144).  It performs no
writes, so the store comes back unchanged. -/
def summaryOf (s : Store) (did : Nat) : Option SummaryResponse × Store :=
  (match getDataset s did with
    | none => none
    | some d =>
      some
        { id := d.id
          name := d.name
          uploadedAt := d.uploadedAt
          totalCount := d.totalCount
          avgFlowrate2dp := d.avgFlowrate.map (pyRound 2)
          avgPressure2dp := d.avgPressure.map (pyRound 2)
          avgTemperature2dp := d.avgTemperature.map (pyRound 2)
          typeDistribution := typeDistribution ((equipmentsOf s did).map Equipment.type) },
    s)

/-- Fields of `DatasetSummarySerializer` (serializers.py lines 9..18):
the stored statistics verbatim plus the live equipment count. -/
structure SummaryPayload where
  id : Nat
  name : String
  uploadedAt : Nat
  totalCount : Nat
  avgFlowrate : Option ℚ
  avgPressure : Option ℚ
  avgTemperature : Option ℚ
  equipmentCount : Nat
  deriving DecidableEq

/-- `DatasetSummarySerializer` applied to one dataset. -/
def serializeSummary (s : Store) (d : Dataset) : SummaryPayload :=
  ⟨d.id, d.name, d.uploadedAt, d.totalCount, d.avgFlowrate, d.avgPressure, d.avgTemperature,
    (equipmentsOf s d.id).length⟩

/-- Fields of `DatasetDetailSerializer` (serializers.py lines 20..26). -/
structure DetailPayload where
  id : Nat
  name : String
  uploadedAt : Nat
  totalCount : Nat
  avgFlowrate : Option ℚ
  avgPressure : Option ℚ
  avgTemperature : Option ℚ
  equipments : List Equipment
  deriving DecidableEq

/-- `DatasetDetailSerializer` applied to one dataset. -/
def serializeDetail (s : Store) (d : Dataset) : DetailPayload :=
  ⟨d.id, d.name, d.uploadedAt, d.totalCount, d.avgFlowrate, d.avgPressure, d.avgTemperature,
    equipmentsOf s d.id⟩

/-- The `history` endpoint (views.py lines 146..151): the five newest
datasets through the summary serializer; no writes. -/
def historyEndpoint (s : Store) : List SummaryPayload × Store :=
  (((allDatasets s).take 5).map (serializeSummary s), s)

/-- Key order used by Python `sorted` on the dict items of views.py line
203; dict keys are distinct, so tuple comparison is comparison of keys. -/
def keyLe (a b : String × Nat) : Prop := a.1 ≤ b.1

instance : DecidableRel keyLe :=
  fun a b => inferInstanceAs (Decidable (a.1 ≤ b.1))

instance : IsTotal (String × Nat) keyLe :=
  ⟨fun a b => le_total a.1 b.1⟩

instance : IsTrans (String × Nat) keyLe :=
  ⟨fun _ _ _ hab hbc => le_trans hab hbc⟩

/-- One rendered line of the equipment table (views.py lines 236..240):
name truncated to 20 characters, per-row numbers at one decimal. -/
structure TableRow where
  name : String
  eqType : String
  flowrate1dp : ℚ
  pressure1dp : ℚ
  temperature1dp : ℚ
  deriving DecidableEq

/-- Content of the generated PDF (views.py lines 159..248): title,
metadata block, summary block at two decimals, type distribution sorted
ascending by type name, and the equipment table.  Page-break positioning
(lines 209..234) moves content between pages without changing it and is
not modelled. -/
structure PdfReport where
  title : String
  datasetName : String
  uploadedAt : Nat
  uploadedBy : String
  totalCount : Nat
  avgFlowrate2dp : Option ℚ
  avgPressure2dp : Option ℚ
  avgTemperature2dp : Option ℚ
  distEntries : List (String × Nat)
  tableRows : List TableRow
  deriving DecidableEq

/-- Drawing pass of `generate_pdf` for one dataset and its equipments. -/
def renderReport (d : Dataset) (eqs : List Equipment) : PdfReport :=
  { title := "Equipment Analysis Report"
    datasetName := d.name
    uploadedAt := d.uploadedAt
    uploadedBy := d.uploadedBy
    totalCount := d.totalCount
    avgFlowrate2dp := d.avgFlowrate.map (pyRound 2)
    avgPressure2dp := d.avgPressure.map (pyRound 2)
    avgTemperature2dp := d.avgTemperature.map (pyRound 2)
    distEntries := List.insertionSort keyLe (typeDistribution (eqs.map Equipment.type))
    tableRows := eqs.map (fun e =>
      ⟨e.name.take 20, e.type, pyRound 1 e.flowrate, pyRound 1 e.pressure,
        pyRound 1 e.temperature⟩) }

/-- The `generate_pdf` endpoint (views.py lines 153..251). -/
def generatePdf (s : Store) (did : Nat) : Option PdfReport :=
  (getDataset s did).map (fun d => renderReport d (equipmentsOf s did))

/-- Well-formedness of a reachable store: the dataset table is sorted
newest first, all timestamps are below the clock, primary keys are
distinct and below the counter. -/
def WF (s : Store) : Prop :=
  List.Sorted newerEq s.datasets
  ∧ (∀ d ∈ s.datasets, d.uploadedAt < s.clock)
  ∧ (s.datasets.map Dataset.id).Nodup
  ∧ (∀ d ∈ s.datasets, d.id < s.nextId)

instance (s : Store) : Decidable (WF s) :=
  inferInstanceAs (Decidable (List.Sorted newerEq s.datasets
    ∧ (∀ d ∈ s.datasets, d.uploadedAt < s.clock)
    ∧ (s.datasets.map Dataset.id).Nodup
    ∧ (∀ d ∈ s.datasets, d.id < s.nextId)))

/-- State reached by the pruning loop when every file deletion succeeds:
each listed dataset's file, metadata row and equipment rows removed. -/
def deleteAllDs : List Dataset → Store → Store
  | [], s => s
  | d :: rest, s => deleteAllDs rest (deleteDatasetMeta d.id (deleteFileFromStore d.fileRef s))

/-- Event trace of a fully successful pruning loop: for each dataset, its
file deletion immediately followed by its metadata deletion. -/
def pairedTrace : List Dataset → List Ev
  | [] => []
  | d :: rest => .delFile d.id :: .delMeta d.id :: pairedTrace rest

/-- Modelled from the spec: the arithmetic mean of a list of readings,
summed in row order and divided by the row count. -/
def specMean (qs : List ℚ) : ℚ := qs.sum / (qs.length : ℚ)

/-- Modelled from the spec: a `MalformedRow` failure report must carry
the offending row index and the column name.  None of the upload
endpoint's error responses (views.py lines 49, 52, 63..67, 113, 115)
includes a row-index or column-name field, so no constructor of
`UploadError` carries them. -/
def UploadError.carriesRowIndexAndColumn : UploadError → Prop
  | .noFile => False
  | .notCsv => False
  | .missingColumns _ _ => False
  | .emptyData => False
  | .processing _ => False

/-- A well-formed one-row CSV used by the concrete scenarios. -/
def sampleCsv : CsvFile :=
  ⟨"data.csv", requiredCols,
    [[.str "P1", .str "Pump", .num 10, .num 2, .num 300]]⟩

/-- A CSV whose Flowrate column holds non-numeric text. -/
def csvBadCell : CsvFile :=
  ⟨"data.csv", requiredCols,
    [[.str "P1", .str "Pump", .str "abc", .num 2, .num 300]]⟩

/-- A CSV with all required columns but zero data rows. -/
def csvHeaderOnly : CsvFile := ⟨"data.csv", requiredCols, []⟩

/-- Store after n sequential successful uploads of `sampleCsv`, starting
from the empty store, with all storage operations succeeding. -/
def uploadsIter : Nat → Store
  | 0 => emptyStore
  | n + 1 => (upload (uploadsIter n) "u" (some sampleCsv) (fun _ => true)).store

/-- Concrete dataset whose stored means round visibly at two decimals. -/
def wDs : Dataset :=
  ⟨0, "w.csv", "u", 0, 0, 1, some (5 / 3), some (1 / 40), some 300⟩

/-- Concrete one-dataset store for the read-endpoint witnesses. -/
def wStore : Store := ⟨[wDs], [⟨0, "P1", "Pump", 5 / 3, 1 / 40, 300⟩], [0], 1, 1⟩

/-- C8: for every store holding at most 5 datasets, the retention-pruning
step of the upload endpoint is a no-op: no deletion events, identical
store (datasets, equipment rows and backing files all unchanged), and it
reports success; hence re-running it never changes the store. -/
theorem c8_prune_noop (oracle : Nat → Bool) (s : Store)
    (h : (allDatasets s).length ≤ 5) :
    retentionPrune oracle s = (s, [], true) := by
  unfold retentionPrune
  rw [List.drop_eq_nil_of_le h]
  rfl

theorem c8_prune_noop_witness :
    (allDatasets emptyStore).length ≤ 5
    ∧ retentionPrune (fun _ => true) emptyStore = (emptyStore, [], true) :=
  ⟨by decide, c8_prune_noop (fun _ => true) emptyStore (by decide)⟩

/-- C9: rendering the report of a dataset with zero equipment records
succeeds and yields the full document — title, metadata block and
summary-statistics block — with an empty equipment table and an empty
type-distribution list; and every rendered report has its
type-distribution entries sorted by type name ascending. -/
theorem c9_empty_report (s : Store) (did : Nat) (d : Dataset)
    (hd : getDataset s did = some d) (he : equipmentsOf s did = []) :
    generatePdf s did = some
      { title := "Equipment Analysis Report"
        datasetName := d.name
        uploadedAt := d.uploadedAt
        uploadedBy := d.uploadedBy
        totalCount := d.totalCount
        avgFlowrate2dp := d.avgFlowrate.map (pyRound 2)
        avgPressure2dp := d.avgPressure.map (pyRound 2)
        avgTemperature2dp := d.avgTemperature.map (pyRound 2)
        distEntries := []
        tableRows := [] }
    ∧ ∀ (s2 : Store) (did2 : Nat) (r : PdfReport),
        generatePdf s2 did2 = some r → List.Sorted keyLe r.distEntries := by
  constructor
  · unfold generatePdf
    rw [hd, he]
    rfl
  · intro s2 did2 r h
    unfold generatePdf at h
    cases hg : getDataset s2 did2 with
    | none => rw [hg] at h; exact absurd h (by simp)
    | some d2 =>
        rw [hg] at h
        have hr : renderReport d2 (equipmentsOf s2 did2) = r := Option.some.inj (by simpa using h)
        rw [← hr]
        exact List.sorted_insertionSort keyLe _

theorem c9_empty_report_witness :
    getDataset wStore 1 = none
    ∧ generatePdf emptyStore 0 = none
    ∧ (let s3 : Store := ⟨[⟨3, "e.csv", "u", 7, 3, 0, none, none, none⟩], [], [3], 4, 8⟩;
        getDataset s3 3 = some ⟨3, "e.csv", "u", 7, 3, 0, none, none, none⟩
        ∧ generatePdf s3 3 = some
            { title := "Equipment Analysis Report"
              datasetName := "e.csv"
              uploadedAt := 7
              uploadedBy := "u"
              totalCount := 0
              avgFlowrate2dp := none
              avgPressure2dp := none
              avgTemperature2dp := none
              distEntries := []
              tableRows := [] }) :=
  ⟨by decide, by decide,
    ⟨by decide,
      by
        have h := c9_empty_report
          ⟨[⟨3, "e.csv", "u", 7, 3, 0, none, none, none⟩], [], [3], 4, 8⟩ 3
          ⟨3, "e.csv", "u", 7, 3, 0, none, none, none⟩ (by decide) (by decide)
        simpa using h.1⟩⟩

/-- C10: for every stored dataset, the summary endpoint reports its mean
fields rounded to two decimal places, while the history (list) and detail
serializers of the same dataset report the stored unrounded values; none
of these reads modifies the store. -/
theorem c10_summary_rounds (s : Store) (did : Nat) (d : Dataset)
    (h : getDataset s did = some d) :
    (summaryOf s did).1 = some
      { id := d.id
        name := d.name
        uploadedAt := d.uploadedAt
        totalCount := d.totalCount
        avgFlowrate2dp := d.avgFlowrate.map (pyRound 2)
        avgPressure2dp := d.avgPressure.map (pyRound 2)
        avgTemperature2dp := d.avgTemperature.map (pyRound 2)
        typeDistribution := typeDistribution ((equipmentsOf s did).map Equipment.type) }
    ∧ (summaryOf s did).2 = s
    ∧ serializeSummary s d = ⟨d.id, d.name, d.uploadedAt, d.totalCount, d.avgFlowrate,
        d.avgPressure, d.avgTemperature, (equipmentsOf s d.id).length⟩
    ∧ serializeDetail s d = ⟨d.id, d.name, d.uploadedAt, d.totalCount, d.avgFlowrate,
        d.avgPressure, d.avgTemperature, equipmentsOf s d.id⟩
    ∧ (historyEndpoint s).2 = s := by
  refine ⟨?_, rfl, rfl, rfl, rfl⟩
  unfold summaryOf
  rw [h]

theorem c10_summary_rounds_witness :
    getDataset wStore 0 = some wDs
    ∧ (summaryOf wStore 0).1 = some
        { id := 0
          name := "w.csv"
          uploadedAt := 0
          totalCount := 1
          avgFlowrate2dp := some (167 / 100)
          avgPressure2dp := some (1 / 50)
          avgTemperature2dp := some 300
          typeDistribution := [("Pump", 1)] }
    ∧ serializeSummary wStore wDs
        = ⟨0, "w.csv", 0, 1, some (5 / 3), some (1 / 40), some 300, 1⟩
    ∧ (summaryOf wStore 0).2 = wStore := by
  have h := c10_summary_rounds wStore 0 wDs rfl
  refine ⟨rfl, ?_, rfl, h.2.1⟩
  rw [h.1]
  have h1 : pyRound 2 ((5 : ℚ) / 3) = 167 / 100 := by
    unfold pyRound roundHalfEven
    norm_num
  have h3 : pyRound 2 ((300 : ℚ)) = 300 := by
    unfold pyRound roundHalfEven
    norm_num
  have h4 : typeDistribution ((equipmentsOf wStore 0).map Equipment.type) = [("Pump", 1)] := by
    decide
  simp [wDs, h1, h3, h4]
  unfold pyRound roundHalfEven
  norm_num

/-- C6: an uploaded .csv file whose nonempty header is missing required
columns fails with the schema-mismatch response carrying the missing
column names and the columns actually found in file order, with nothing
persisted; a header missing only Pressure reports exactly ["Pressure"]
missing. -/
theorem c6_schema_mismatch (s : Store) (u : String) (oracle : Nat → Bool) (f : CsvFile)
    (hcsv : strEndsWith f.filename ".csv" = true) (hne : f.header ≠ [])
    (hmiss : requiredCols.filter (fun c => decide (c ∉ f.header)) ≠ []) :
    upload s u (some f) oracle =
      ⟨.error (.missingColumns (requiredCols.filter (fun c => decide (c ∉ f.header))) f.header),
        s, []⟩
    ∧ requiredCols.filter
        (fun c => decide (c ∉ (["Equipment Name", "Type", "Flowrate", "Temperature"] : List String)))
        = ["Pressure"] := by
  refine ⟨?_, by decide⟩
  have hstats : computeStats f
      = .error (.missingColumns (requiredCols.filter (fun c => decide (c ∉ f.header))) f.header) := by
    unfold computeStats
    rw [if_neg hne, if_neg hmiss]
  simp only [upload]
  rw [if_pos hcsv, hstats]

theorem c6_schema_mismatch_witness :
    strEndsWith "data.csv" ".csv" = true
    ∧ upload emptyStore "u"
        (some ⟨"data.csv", ["Equipment Name", "Type", "Flowrate", "Temperature"],
          [[.str "a", .str "b", .num 1, .num 2]]⟩) (fun _ => true) =
      ⟨.error (.missingColumns ["Pressure"]
          ["Equipment Name", "Type", "Flowrate", "Temperature"]),
        emptyStore, []⟩ := by
  refine ⟨by decide, ?_⟩
  have h := (c6_schema_mismatch emptyStore "u" (fun _ => true)
    ⟨"data.csv", ["Equipment Name", "Type", "Flowrate", "Temperature"],
      [[.str "a", .str "b", .num 1, .num 2]]⟩ (by decide) (by decide) (by decide)).1
  rw [h]
  decide

/-- Looking up the key at the head of an association list. -/
theorem lookup_cons_self (k : String) (n : Nat) (rest : List (String × Nat)) :
    List.lookup k ((k, n) :: rest) = some n := by
  simp [List.lookup]

/-- Looking up a key different from the head of an association list. -/
theorem lookup_cons_ne (u k : String) (n : Nat) (rest : List (String × Nat)) (h : u ≠ k) :
    List.lookup u ((k, n) :: rest) = List.lookup u rest := by
  have hb : (u == k) = false := beq_eq_false_iff_ne.mpr h
  simp [List.lookup, hb]

/-- Effect of one dict update on a lookup. -/
theorem lookup_bump (acc : List (String × Nat)) (t u : String) :
    List.lookup u (bump acc t) =
      if u = t then some ((List.lookup u acc).getD 0 + 1) else List.lookup u acc := by
  induction acc with
  | nil =>
    by_cases h : u = t
    · subst h; simp [bump, lookup_cons_self]
    · simp [bump, h, lookup_cons_ne u t 1 [] h]
  | cons kv rest ih =>
    obtain ⟨k, n⟩ := kv
    by_cases hkt : k = t
    · subst hkt
      by_cases huk : u = k
      · subst huk; simp [bump, lookup_cons_self]
      · simp [bump, huk, lookup_cons_ne u k (n + 1) rest huk, lookup_cons_ne u k n rest huk]
    · by_cases huk : u = k
      · subst huk
        have hut : u ≠ t := fun hh => hkt hh
        simp [bump, hkt, hut, lookup_cons_self]
      · by_cases hut : u = t
        · subst hut
          simp [bump, hkt, lookup_cons_ne u k n (bump rest u) huk,
            lookup_cons_ne u k n rest huk, ih]
        · simp [bump, hkt, hut, lookup_cons_ne u k n (bump rest t) huk,
            lookup_cons_ne u k n rest huk, ih]

/-- The dict count accumulated by the fold equals the accumulator's count
plus the number of occurrences in the traversed list. -/
theorem lookupD_foldl_bump (ts : List String) (acc : List (String × Nat)) (u : String) :
    ((List.lookup u (ts.foldl bump acc)).getD 0) = (List.lookup u acc).getD 0 + ts.count u := by
  induction ts generalizing acc with
  | nil => simp
  | cons t ts ih =>
    rw [List.foldl_cons, ih, lookup_bump]
    by_cases h : u = t
    · subst h
      simp [List.count_cons]
      omega
    · have hb : (u == t) = false := beq_eq_false_iff_ne.mpr h
      simp [List.count_cons, h, hb]

/-- Keys present after one dict update. -/
theorem mem_keys_bump (acc : List (String × Nat)) (t u : String) :
    u ∈ (bump acc t).map Prod.fst ↔ u ∈ acc.map Prod.fst ∨ u = t := by
  induction acc with
  | nil => simp [bump]
  | cons kv rest ih =>
    obtain ⟨k, n⟩ := kv
    by_cases hkt : k = t
    · subst hkt
      simp [bump]
      tauto
    · simp [bump, hkt, ih]
      tauto

/-- Keys present after folding the dict updates over a list. -/
theorem mem_keys_foldl_bump (ts : List String) (acc : List (String × Nat)) (u : String) :
    u ∈ (ts.foldl bump acc).map Prod.fst ↔ u ∈ acc.map Prod.fst ∨ u ∈ ts := by
  induction ts generalizing acc with
  | nil => simp
  | cons t ts ih =>
    rw [List.foldl_cons, ih, mem_keys_bump]
    simp [List.mem_cons]
    tauto

/-- A lookup misses exactly when the key is absent. -/
theorem lookup_eq_none_iff (l : List (String × Nat)) (u : String) :
    List.lookup u l = none ↔ u ∉ l.map Prod.fst := by
  induction l with
  | nil => simp
  | cons kv rest ih =>
    obtain ⟨k, n⟩ := kv
    by_cases h : u = k
    · subst h; simp [lookup_cons_self]
    · simp [lookup_cons_ne u k n rest h, ih, h]

/-- C7: the computed type distribution of a row sequence maps exactly the
distinct observed type strings to the number of rows carrying them (each
count at least 1); the summary endpoint reports precisely this
distribution for a dataset's rows; and on types Pump, Valve, Pump the
distribution is Pump 2, Valve 1. -/
theorem c7_type_distribution (ts : List String) :
    (∀ t, t ∈ (typeDistribution ts).map Prod.fst ↔ t ∈ ts)
    ∧ (∀ t n, List.lookup t (typeDistribution ts) = some n → n = ts.count t ∧ 1 ≤ n)
    ∧ (∀ (s : Store) (did : Nat) (r : SummaryResponse), (summaryOf s did).1 = some r →
        r.typeDistribution = typeDistribution ((equipmentsOf s did).map Equipment.type))
    ∧ typeDistribution ["Pump", "Valve", "Pump"] = [("Pump", 2), ("Valve", 1)] := by
  refine ⟨?_, ?_, ?_, by decide⟩
  · intro t
    have h := mem_keys_foldl_bump ts [] t
    simpa [typeDistribution] using h
  · intro t n h
    have hcnt := lookupD_foldl_bump ts [] t
    unfold typeDistribution at h
    rw [h] at hcnt
    simp at hcnt
    refine ⟨hcnt, ?_⟩
    have hkey : t ∈ (ts.foldl bump []).map Prod.fst := by
      by_contra hc
      rw [← lookup_eq_none_iff] at hc
      rw [h] at hc
      cases hc
    have hmem : t ∈ ts := by
      have hk := (mem_keys_foldl_bump ts [] t).mp hkey
      simpa using hk
    have hpos : 0 < ts.count t := List.count_pos_iff.mpr hmem
    omega
  · intro s did r h
    unfold summaryOf at h
    cases hg : getDataset s did with
    | none => rw [hg] at h; cases h
    | some d =>
        rw [hg] at h
        have := Option.some.inj h
        rw [← this]

theorem c7_type_distribution_witness :
    List.lookup "Pump" (typeDistribution ["Pump", "Valve", "Pump"]) = some 2
    ∧ (2 = (["Pump", "Valve", "Pump"] : List String).count "Pump" ∧ 1 ≤ 2) :=
  ⟨by decide,
    (c7_type_distribution ["Pump", "Valve", "Pump"]).2.1 "Pump" 2 (by decide)⟩

/-- Mean of a fully numeric, nonempty column. -/
theorem colMean_ok_of_all (cells : List Cell) (hall : cells.all Cell.isNum = true)
    (hne : cells ≠ []) :
    colMean cells = .ok (some ((cells.map Cell.toQ).sum / (cells.length : ℚ))) := by
  unfold colMean
  rw [if_pos hall, if_neg (fun h => hne (List.length_eq_zero.mp h))]

/-- Mean of a column with any non-numeric cell raises. -/
theorem colMean_error_of_not_all (cells : List Cell) (h : cells.all Cell.isNum = false) :
    colMean cells = .error "could not convert string to float" := by
  unfold colMean
  rw [if_neg (by simp [h])]

/-- A header satisfying the required-columns check is nonempty. -/
theorem header_ne_nil_of_required (f : CsvFile)
    (hmiss : requiredCols.filter (fun c => decide (c ∉ f.header)) = []) :
    f.header ≠ [] := by
  intro h
  rw [h] at hmiss
  exact absurd hmiss (by decide)

/-- Validation succeeds on a nonempty file with all required columns and
fully numeric reading columns, producing the three column means. -/
theorem computeStats_ok (f : CsvFile)
    (hmiss : requiredCols.filter (fun c => decide (c ∉ f.header)) = [])
    (hF : (column f "Flowrate").all Cell.isNum = true)
    (hP : (column f "Pressure").all Cell.isNum = true)
    (hT : (column f "Temperature").all Cell.isNum = true)
    (hne : f.rows ≠ []) :
    computeStats f = .ok
      (some (specMean ((column f "Flowrate").map Cell.toQ)),
       some (specMean ((column f "Pressure").map Cell.toQ)),
       some (specMean ((column f "Temperature").map Cell.toQ))) := by
  have hcol : ∀ c, column f c ≠ [] := by
    intro c h
    exact hne (List.map_eq_nil_iff.mp h)
  unfold computeStats
  rw [if_neg (header_ne_nil_of_required f hmiss), if_pos hmiss,
    colMean_ok_of_all _ hF (hcol _), colMean_ok_of_all _ hP (hcol _),
    colMean_ok_of_all _ hT (hcol _)]
  simp [specMean]

/-- Pruning with every file deletion succeeding deletes exactly the
listed datasets, tracing file-then-metadata deletions, and succeeds. -/
theorem pruneLoop_true (l : List Dataset) (s : Store) :
    pruneLoop (fun _ => true) l s = (deleteAllDs l s, pairedTrace l, true) := by
  induction l generalizing s with
  | nil => rfl
  | cons d rest ih => simp [pruneLoop, deleteAllDs, pairedTrace, ih]

/-- The retention step under an always-succeeding storage backend. -/
theorem retentionPrune_true (s : Store) :
    retentionPrune (fun _ => true) s
      = (deleteAllDs ((allDatasets s).drop 5) s, pairedTrace ((allDatasets s).drop 5), true) := by
  unfold retentionPrune
  exact pruneLoop_true _ _

/-- C5: for every valid CSV with at least one data row whose reading
columns are fully numeric, the upload succeeds and the created dataset
records row count equal to the number of data rows and mean fields equal
(within 1e-9) to the arithmetic means, summed in row order, of the
corresponding columns. -/
theorem c5_mean_fields (s : Store) (u : String) (f : CsvFile)
    (hcsv : strEndsWith f.filename ".csv" = true)
    (hmiss : requiredCols.filter (fun c => decide (c ∉ f.header)) = [])
    (hF : (column f "Flowrate").all Cell.isNum = true)
    (hP : (column f "Pressure").all Cell.isNum = true)
    (hT : (column f "Temperature").all Cell.isNum = true)
    (hne : f.rows ≠ []) :
    ∃ d, (upload s u (some f) (fun _ => true)).result = .ok d
      ∧ d.totalCount = f.rows.length
      ∧ (∃ m, d.avgFlowrate = some m
          ∧ |m - specMean ((column f "Flowrate").map Cell.toQ)| ≤ 1 / 1000000000)
      ∧ (∃ m, d.avgPressure = some m
          ∧ |m - specMean ((column f "Pressure").map Cell.toQ)| ≤ 1 / 1000000000)
      ∧ (∃ m, d.avgTemperature = some m
          ∧ |m - specMean ((column f "Temperature").map Cell.toQ)| ≤ 1 / 1000000000) := by
  have hstats := computeStats_ok f hmiss hF hP hT hne
  have hres : (upload s u (some f) (fun _ => true)).result
      = .ok (persist s u f
          (some (specMean ((column f "Flowrate").map Cell.toQ)))
          (some (specMean ((column f "Pressure").map Cell.toQ)))
          (some (specMean ((column f "Temperature").map Cell.toQ)))).1 := by
    simp only [upload]
    rw [if_pos hcsv, hstats]
    simp [retentionPrune_true]
  refine ⟨_, hres, rfl, ⟨_, rfl, ?_⟩, ⟨_, rfl, ?_⟩, ⟨_, rfl, ?_⟩⟩ <;>
    · rw [sub_self, abs_zero]
      norm_num

theorem c5_mean_fields_witness :
    ∃ d, (upload emptyStore "u" (some sampleCsv) (fun _ => true)).result = .ok d
      ∧ d.totalCount = sampleCsv.rows.length
      ∧ (∃ m, d.avgFlowrate = some m
          ∧ |m - specMean ((column sampleCsv "Flowrate").map Cell.toQ)| ≤ 1 / 1000000000)
      ∧ (∃ m, d.avgPressure = some m
          ∧ |m - specMean ((column sampleCsv "Pressure").map Cell.toQ)| ≤ 1 / 1000000000)
      ∧ (∃ m, d.avgTemperature = some m
          ∧ |m - specMean ((column sampleCsv "Temperature").map Cell.toQ)| ≤ 1 / 1000000000) :=
  c5_mean_fields emptyStore "u" sampleCsv (by decide) (by decide) (by decide) (by decide)
    (by decide) (by decide)

/-- Datasets remaining after the deletion loop runs to completion. -/
theorem deleteAllDs_datasets (l : List Dataset) (s : Store) :
    (deleteAllDs l s).datasets =
      s.datasets.filter (fun x => decide (x.id ∉ l.map Dataset.id)) := by
  induction l generalizing s with
  | nil =>
    exact (List.filter_eq_self.mpr (fun a _ => by simp)).symm
  | cons d rest ih =>
    show (deleteAllDs rest (deleteDatasetMeta d.id (deleteFileFromStore d.fileRef s))).datasets = _
    rw [ih]
    show (s.datasets.filter (fun x => decide (x.id ≠ d.id))).filter _ = _
    rw [List.filter_filter]
    apply List.filter_congr
    intro x _
    by_cases h1 : x.id = d.id <;> by_cases h2 : x.id ∈ rest.map Dataset.id <;>
      simp [h1, h2]

/-- Removing the entries whose key appears in the dropped suffix of a
duplicate-free list keeps exactly the taken prefix. -/
theorem filter_not_mem_drop : ∀ (l : List Dataset) (n : Nat), (l.map Dataset.id).Nodup →
    l.filter (fun x => decide (x.id ∉ (l.drop n).map Dataset.id)) = l.take n := by
  intro l
  induction l with
  | nil => intro n _; simp
  | cons a tl ih =>
    intro n hnd
    cases n with
    | zero =>
      simp only [List.drop_zero, List.take_zero]
      apply List.filter_eq_nil_iff.mpr
      intro x hx
      have hm : x.id ∈ (a :: tl).map Dataset.id := List.mem_map_of_mem Dataset.id hx
      simp only [decide_eq_true_eq, not_not]
      exact hm
    | succ m =>
      rw [List.drop_succ_cons, List.take_succ_cons]
      have hnd2 : (tl.map Dataset.id).Nodup := (List.nodup_cons.mp (by simpa using hnd)).2
      have hhead : a.id ∉ (tl.drop m).map Dataset.id := by
        intro hmem
        have h1 : a.id ∉ tl.map Dataset.id := (List.nodup_cons.mp (by simpa using hnd)).1
        exact h1 (List.map_subset Dataset.id (List.drop_subset m tl) hmem)
      rw [List.filter_cons_of_pos (by simpa using hhead), ih m hnd2]

/-- In the trace of a completed pruning loop, every listed dataset's file
deletion strictly precedes its metadata deletion. -/
theorem pairedTrace_order (l : List Dataset) (x : Dataset) (hx : x ∈ l) :
    ∃ i j, i < j ∧ (pairedTrace l).get? i = some (.delFile x.id)
      ∧ (pairedTrace l).get? j = some (.delMeta x.id) := by
  induction l with
  | nil => cases hx
  | cons d rest ih =>
    rcases List.mem_cons.mp hx with h | h
    · subst h
      exact ⟨0, 1, Nat.zero_lt_one, rfl, rfl⟩
    · obtain ⟨i, j, hij, h1, h2⟩ := ih h
      refine ⟨i + 2, j + 2, by omega, ?_, ?_⟩
      · show (Ev.delFile d.id :: Ev.delMeta d.id :: pairedTrace rest).get? (i + 2) = _
        rw [List.get?_cons_succ, List.get?_cons_succ]
        exact h1
      · show (Ev.delFile d.id :: Ev.delMeta d.id :: pairedTrace rest).get? (j + 2) = _
        rw [List.get?_cons_succ, List.get?_cons_succ]
        exact h2

/-- The freshly created dataset carries the current clock, so prepending
it keeps the table sorted newest first. -/
theorem sorted_push (s : Store) (hsort : List.Sorted newerEq s.datasets)
    (hclock : ∀ d ∈ s.datasets, d.uploadedAt < s.clock)
    (u : String) (f : CsvFile) (mf mp mt : Option ℚ) :
    List.Sorted newerEq ((persist s u f mf mp mt).1 :: s.datasets) :=
  List.sorted_cons.mpr ⟨fun b hb => le_of_lt (hclock b hb), hsort⟩

/-- The freshly created dataset carries the next primary key, so
prepending it keeps the key column duplicate-free. -/
theorem nodup_push (s : Store) (hnodup : (s.datasets.map Dataset.id).Nodup)
    (hids : ∀ d ∈ s.datasets, d.id < s.nextId)
    (u : String) (f : CsvFile) (mf mp mt : Option ℚ) :
    (((persist s u f mf mp mt).1 :: s.datasets).map Dataset.id).Nodup := by
  rw [List.map_cons]
  refine List.nodup_cons.mpr ⟨?_, hnodup⟩
  intro hmem
  obtain ⟨x, hx, hid⟩ := List.mem_map.mp hmem
  have h1 : x.id < s.nextId := hids x hx
  have h2 : x.id = s.nextId := hid
  omega

/-- Full description of a successful upload against an always-succeeding
storage backend: the new dataset is returned, the excess datasets beyond
the newest five are deleted, and the trace pairs each file deletion with
the following metadata deletion. -/
theorem upload_true_oracle (s : Store) (u : String) (f : CsvFile) (mf mp mt : Option ℚ)
    (hwf : WF s) (hcsv : strEndsWith f.filename ".csv" = true)
    (hstats : computeStats f = .ok (mf, mp, mt)) :
    upload s u (some f) (fun _ => true) =
      ⟨.ok (persist s u f mf mp mt).1,
        deleteAllDs (((persist s u f mf mp mt).1 :: s.datasets).drop 5) (persist s u f mf mp mt).2,
        pairedTrace (((persist s u f mf mp mt).1 :: s.datasets).drop 5)⟩ := by
  obtain ⟨hsort, hclock, hnodup, hids⟩ := hwf
  have hall : allDatasets (persist s u f mf mp mt).2
      = (persist s u f mf mp mt).1 :: s.datasets := by
    unfold allDatasets
    exact (sorted_push s hsort hclock u f mf mp mt).insertionSort_eq
  simp only [upload]
  rw [if_pos hcsv, hstats]
  simp [retentionPrune_true, hall]

/-- A dataset not named in the pruning list survives the pruning loop,
whether or not the loop aborts early on a storage failure. -/
theorem mem_pruneLoop_store (oracle : Nat → Bool) (l : List Dataset) (s : Store)
    (x : Dataset) (hx : x ∈ s.datasets) (hid : x.id ∉ l.map Dataset.id) :
    x ∈ (pruneLoop oracle l s).1.datasets := by
  induction l generalizing s with
  | nil => simpa [pruneLoop] using hx
  | cons d rest ih =>
    by_cases h : oracle d.fileRef
    · have hx2 : x ∈ (deleteDatasetMeta d.id (deleteFileFromStore d.fileRef s)).datasets := by
        show x ∈ s.datasets.filter _
        refine List.mem_filter.mpr ⟨hx, ?_⟩
        have hne : x.id ≠ d.id := fun hh => hid (by simp [hh])
        exact decide_eq_true hne
      have hid2 : x.id ∉ rest.map Dataset.id := fun hh => hid (by simp [hh])
      have hrec := ih (deleteDatasetMeta d.id (deleteFileFromStore d.fileRef s)) hx2 hid2
      simpa [pruneLoop, h] using hrec
    · simpa [pruneLoop, h] using hx

/-- Dataset table after a successful upload with all storage operations
succeeding: the newest five of the new dataset and the previous table. -/
theorem upload_true_store_datasets (s : Store) (u : String) (f : CsvFile)
    (mf mp mt : Option ℚ) (hwf : WF s) (hcsv : strEndsWith f.filename ".csv" = true)
    (hstats : computeStats f = .ok (mf, mp, mt)) :
    (upload s u (some f) (fun _ => true)).store.datasets
      = ((persist s u f mf mp mt).1 :: s.datasets).take 5 := by
  obtain ⟨hsort, hclock, hnodup, hids⟩ := hwf
  rw [upload_true_oracle s u f mf mp mt ⟨hsort, hclock, hnodup, hids⟩ hcsv hstats]
  show (deleteAllDs _ (persist s u f mf mp mt).2).datasets = _
  rw [deleteAllDs_datasets]
  show ((persist s u f mf mp mt).1 :: s.datasets).filter _ = _
  exact filter_not_mem_drop _ 5 (nodup_push s hnodup hids u f mf mp mt)

/-- C1 counterexample: a .csv upload whose header has all required
columns but zero data rows does not fail with the empty-input error;
it succeeds with HTTP 201 and persists a dataset with row count 0 and
NaN means, so the claim fails at this input. -/
theorem c1_counterexample :
    (upload emptyStore "u" (some csvHeaderOnly) (fun _ => true)).result
      = .ok ⟨0, "data.csv", "u", 0, 0, 0, none, none, none⟩
    ∧ (upload emptyStore "u" (some csvHeaderOnly) (fun _ => true)).store.datasets ≠ [] :=
  ⟨by decide, by decide⟩

/-- C1 amended: only a CSV file with no columns at all fails with the
empty-input error (and persists nothing); a .csv file with all required
columns and zero data rows is accepted: the upload succeeds and persists
a dataset with row count 0 and NaN (modelled as none) mean fields. -/
theorem c1_zero_rows_accepted :
    (∀ (s : Store) (u : String) (oracle : Nat → Bool) (f : CsvFile),
        strEndsWith f.filename ".csv" = true → f.header = [] →
        upload s u (some f) oracle = ⟨.error .emptyData, s, []⟩)
    ∧ (∀ (s : Store) (u : String) (f : CsvFile),
        WF s → strEndsWith f.filename ".csv" = true →
        requiredCols.filter (fun c => decide (c ∉ f.header)) = [] →
        f.rows = [] →
        ∃ d, (upload s u (some f) (fun _ => true)).result = .ok d
          ∧ d.totalCount = 0 ∧ d.avgFlowrate = none ∧ d.avgPressure = none
          ∧ d.avgTemperature = none
          ∧ d ∈ (upload s u (some f) (fun _ => true)).store.datasets) := by
  constructor
  · intro s u oracle f hcsv hhdr
    have hstats : computeStats f = .error .emptyData := by
      unfold computeStats
      rw [if_pos hhdr]
    simp only [upload]
    rw [if_pos hcsv, hstats]
  · intro s u f hwf hcsv hmiss hrows
    have hcols : ∀ c, column f c = [] := fun c => by simp [column, hrows]
    have hstats : computeStats f = .ok (none, none, none) := by
      unfold computeStats
      rw [if_neg (header_ne_nil_of_required f hmiss), if_pos hmiss]
      simp only [hcols]
      rfl
    refine ⟨(persist s u f none none none).1,
      by rw [upload_true_oracle s u f none none none hwf hcsv hstats], ?_, rfl, rfl, rfl, ?_⟩
    · show f.rows.length = 0
      rw [hrows]
      rfl
    · rw [upload_true_store_datasets s u f none none none hwf hcsv hstats]
      have ht : ((persist s u f none none none).1 :: s.datasets).take 5
          = (persist s u f none none none).1 :: s.datasets.take 4 := rfl
      rw [ht]
      exact List.mem_cons_self _ _

theorem c1_zero_rows_accepted_witness :
    upload emptyStore "u" (some ⟨"empty.csv", [], []⟩) (fun _ => true)
      = ⟨.error .emptyData, emptyStore, []⟩
    ∧ ∃ d, (upload emptyStore "u" (some csvHeaderOnly) (fun _ => true)).result = .ok d
        ∧ d.totalCount = 0 ∧ d.avgFlowrate = none ∧ d.avgPressure = none
        ∧ d.avgTemperature = none
        ∧ d ∈ (upload emptyStore "u" (some csvHeaderOnly) (fun _ => true)).store.datasets :=
  ⟨c1_zero_rows_accepted.1 emptyStore "u" (fun _ => true) ⟨"empty.csv", [], []⟩ (by decide) rfl,
    c1_zero_rows_accepted.2 emptyStore "u" csvHeaderOnly (by decide) (by decide) (by decide) rfl⟩

/-- C2 counterexample: with five datasets stored, an upload whose pruning
step fails to delete the oldest backing file reports the upload as a
failure (generic processing error) even though the new dataset (primary
key 5) and its records were persisted, so the claim fails at this
input. -/
theorem c2_counterexample :
    (upload (uploadsIter 5) "u" (some sampleCsv) (fun r => decide (r ≠ 0))).result
      = .error (.processing "Error processing CSV: file delete failed")
    ∧ (upload (uploadsIter 5) "u" (some sampleCsv)
        (fun r => decide (r ≠ 0))).store.datasets.length = 6
    ∧ ∃ dd ∈ (upload (uploadsIter 5) "u" (some sampleCsv)
        (fun r => decide (r ≠ 0))).store.datasets, dd.id = 5 :=
  ⟨by decide, by decide, by decide⟩

/-- C2 amended: once validation has passed, the new dataset is persisted
and stays persisted whatever the pruning step does, but a pruning failure
changes the caller-visible outcome: the response is then the generic
processing error instead of the created-dataset payload. -/
theorem c2_pruning_failure_surfaces (s : Store) (u : String) (f : CsvFile)
    (mf mp mt : Option ℚ) (oracle : Nat → Bool) (hwf : WF s)
    (hcsv : strEndsWith f.filename ".csv" = true)
    (hstats : computeStats f = .ok (mf, mp, mt)) :
    (persist s u f mf mp mt).1 ∈ (upload s u (some f) oracle).store.datasets
    ∧ ((upload s u (some f) oracle).result = .ok (persist s u f mf mp mt).1
        ∨ (upload s u (some f) oracle).result
            = .error (.processing "Error processing CSV: file delete failed")) := by
  obtain ⟨hsort, hclock, hnodup, hids⟩ := hwf
  have hall : allDatasets (persist s u f mf mp mt).2
      = (persist s u f mf mp mt).1 :: s.datasets := by
    unfold allDatasets
    exact (sorted_push s hsort hclock u f mf mp mt).insertionSort_eq
  rcases hprEq : pruneLoop oracle (((persist s u f mf mp mt).1 :: s.datasets).drop 5)
      (persist s u f mf mp mt).2 with ⟨ps, pevs, pok⟩
  have hmem : (persist s u f mf mp mt).1 ∈ ps.datasets := by
    have hin : (persist s u f mf mp mt).1 ∈ (persist s u f mf mp mt).2.datasets :=
      List.mem_cons_self _ _
    have hnid : (persist s u f mf mp mt).1.id
        ∉ ((((persist s u f mf mp mt).1 :: s.datasets).drop 5).map Dataset.id) := by
      intro hmem2
      obtain ⟨x, hx, hid⟩ := List.mem_map.mp hmem2
      have hsub : x ∈ s.datasets := by
        have hdd : (((persist s u f mf mp mt).1 :: s.datasets).drop 5)
            = s.datasets.drop 4 := rfl
        rw [hdd] at hx
        exact List.drop_subset 4 s.datasets hx
      have h1 : x.id < s.nextId := hids x hsub
      have h2 : x.id = s.nextId := hid
      omega
    have hsurv := mem_pruneLoop_store oracle _ _ _ hin hnid
    rw [hprEq] at hsurv
    exact hsurv
  have hupl : upload s u (some f) oracle =
      if pok then ⟨.ok (persist s u f mf mp mt).1, ps, pevs⟩
      else ⟨.error (.processing "Error processing CSV: file delete failed"), ps, pevs⟩ := by
    simp only [upload]
    rw [if_pos hcsv, hstats]
    simp only [retentionPrune]
    rw [hall, hprEq]
  rw [hupl]
  by_cases hok : pok = true
  · rw [if_pos hok]
    exact ⟨hmem, Or.inl rfl⟩
  · rw [if_neg hok]
    exact ⟨hmem, Or.inr rfl⟩

theorem c2_pruning_failure_surfaces_witness :
    WF (uploadsIter 5)
    ∧ ((persist (uploadsIter 5) "u" sampleCsv
          (some (specMean ((column sampleCsv "Flowrate").map Cell.toQ)))
          (some (specMean ((column sampleCsv "Pressure").map Cell.toQ)))
          (some (specMean ((column sampleCsv "Temperature").map Cell.toQ)))).1
        ∈ (upload (uploadsIter 5) "u" (some sampleCsv)
            (fun r => decide (r ≠ 0))).store.datasets
      ∧ ((upload (uploadsIter 5) "u" (some sampleCsv) (fun r => decide (r ≠ 0))).result
            = .ok (persist (uploadsIter 5) "u" sampleCsv
                (some (specMean ((column sampleCsv "Flowrate").map Cell.toQ)))
                (some (specMean ((column sampleCsv "Pressure").map Cell.toQ)))
                (some (specMean ((column sampleCsv "Temperature").map Cell.toQ)))).1
          ∨ (upload (uploadsIter 5) "u" (some sampleCsv) (fun r => decide (r ≠ 0))).result
              = .error (.processing "Error processing CSV: file delete failed"))) :=
  ⟨by decide,
    c2_pruning_failure_surfaces (uploadsIter 5) "u" sampleCsv _ _ _ (fun r => decide (r ≠ 0))
      (by decide) (by decide)
      (computeStats_ok sampleCsv (by decide) (by decide) (by decide) (by decide) (by decide))⟩

/-- C3: on any well-formed store, a validated upload with all storage
operations succeeding returns the created dataset; afterwards at most 5
datasets exist, namely exactly the first five of the timestamp-descending
ordering of the old datasets plus the new one; in the deletion trace each
pruned dataset's backing-file deletion precedes its metadata deletion;
and after 6 sequential uploads the history lists exactly the newest five
datasets while the first upload's backing file is gone. -/
theorem c3_retention (s : Store) (u : String) (f : CsvFile) (mf mp mt : Option ℚ)
    (hwf : WF s) (hcsv : strEndsWith f.filename ".csv" = true)
    (hstats : computeStats f = .ok (mf, mp, mt)) :
    (upload s u (some f) (fun _ => true)).result = .ok (persist s u f mf mp mt).1
    ∧ (allDatasets (upload s u (some f) (fun _ => true)).store).length ≤ 5
    ∧ allDatasets (upload s u (some f) (fun _ => true)).store
        = (List.insertionSort newerEq ((persist s u f mf mp mt).1 :: s.datasets)).take 5
    ∧ (∀ x ∈ (List.insertionSort newerEq ((persist s u f mf mp mt).1 :: s.datasets)).drop 5,
        ∃ i j, i < j
          ∧ (upload s u (some f) (fun _ => true)).events.get? i = some (.delFile x.id)
          ∧ (upload s u (some f) (fun _ => true)).events.get? j = some (.delMeta x.id))
    ∧ ((historyEndpoint (uploadsIter 6)).1.map SummaryPayload.id = [5, 4, 3, 2, 1]
        ∧ (historyEndpoint (uploadsIter 6)).1.map SummaryPayload.uploadedAt = [5, 4, 3, 2, 1]
        ∧ 0 ∉ (uploadsIter 6).files
        ∧ (allDatasets (uploadsIter 6)).length = 5) := by
  obtain ⟨hsort, hclock, hnodup, hids⟩ := hwf
  have hup := upload_true_oracle s u f mf mp mt ⟨hsort, hclock, hnodup, hids⟩ hcsv hstats
  have hsorted2 := sorted_push s hsort hclock u f mf mp mt
  have hsortEq : List.insertionSort newerEq ((persist s u f mf mp mt).1 :: s.datasets)
      = (persist s u f mf mp mt).1 :: s.datasets := hsorted2.insertionSort_eq
  have hstoreDs := upload_true_store_datasets s u f mf mp mt
    ⟨hsort, hclock, hnodup, hids⟩ hcsv hstats
  have hsortedTake : List.Sorted newerEq (((persist s u f mf mp mt).1 :: s.datasets).take 5) :=
    List.Pairwise.sublist (List.take_sublist 5 _) hsorted2
  have hallStore : allDatasets (upload s u (some f) (fun _ => true)).store
      = ((persist s u f mf mp mt).1 :: s.datasets).take 5 := by
    unfold allDatasets
    rw [hstoreDs]
    exact hsortedTake.insertionSort_eq
  refine ⟨by rw [hup], ?_, ?_, ?_, by decide⟩
  · rw [hallStore]
    exact List.length_take_le 5 _
  · rw [hallStore, hsortEq]
  · intro x hx
    rw [hsortEq] at hx
    have hev : (upload s u (some f) (fun _ => true)).events
        = pairedTrace (((persist s u f mf mp mt).1 :: s.datasets).drop 5) := by rw [hup]
    rw [hev]
    exact pairedTrace_order _ x hx

theorem c3_retention_witness :
    WF emptyStore
    ∧ ((upload emptyStore "u" (some sampleCsv) (fun _ => true)).result
        = .ok (persist emptyStore "u" sampleCsv
            (some (specMean ((column sampleCsv "Flowrate").map Cell.toQ)))
            (some (specMean ((column sampleCsv "Pressure").map Cell.toQ)))
            (some (specMean ((column sampleCsv "Temperature").map Cell.toQ)))).1
      ∧ (allDatasets (upload emptyStore "u" (some sampleCsv) (fun _ => true)).store).length ≤ 5
      ∧ allDatasets (upload emptyStore "u" (some sampleCsv) (fun _ => true)).store
          = (List.insertionSort newerEq ((persist emptyStore "u" sampleCsv
              (some (specMean ((column sampleCsv "Flowrate").map Cell.toQ)))
              (some (specMean ((column sampleCsv "Pressure").map Cell.toQ)))
              (some (specMean ((column sampleCsv "Temperature").map Cell.toQ)))).1
              :: emptyStore.datasets)).take 5
      ∧ (∀ x ∈ (List.insertionSort newerEq ((persist emptyStore "u" sampleCsv
              (some (specMean ((column sampleCsv "Flowrate").map Cell.toQ)))
              (some (specMean ((column sampleCsv "Pressure").map Cell.toQ)))
              (some (specMean ((column sampleCsv "Temperature").map Cell.toQ)))).1
              :: emptyStore.datasets)).drop 5,
          ∃ i j, i < j
            ∧ (upload emptyStore "u" (some sampleCsv) (fun _ => true)).events.get? i
                = some (.delFile x.id)
            ∧ (upload emptyStore "u" (some sampleCsv) (fun _ => true)).events.get? j
                = some (.delMeta x.id))
      ∧ ((historyEndpoint (uploadsIter 6)).1.map SummaryPayload.id = [5, 4, 3, 2, 1]
          ∧ (historyEndpoint (uploadsIter 6)).1.map SummaryPayload.uploadedAt = [5, 4, 3, 2, 1]
          ∧ 0 ∉ (uploadsIter 6).files
          ∧ (allDatasets (uploadsIter 6)).length = 5)) :=
  ⟨by decide,
    c3_retention emptyStore "u" sampleCsv _ _ _ (by decide) (by decide)
      (computeStats_ok sampleCsv (by decide) (by decide) (by decide) (by decide) (by decide))⟩

/-- C4 counterexample: uploading a CSV with a non-numeric Flowrate cell
fails with the generic processing error and persists nothing, but the
error carries no row index or column name, so the claim's MalformedRow
reporting fails at this input. -/
theorem c4_counterexample :
    upload emptyStore "u" (some csvBadCell) (fun _ => true)
      = ⟨.error (.processing "Error processing CSV: could not convert string to float"),
          emptyStore, []⟩
    ∧ ¬ UploadError.carriesRowIndexAndColumn
        (.processing "Error processing CSV: could not convert string to float") :=
  ⟨by decide, fun h => h⟩

/-- C4 amended: a non-numeric cell in any of the Flowrate, Pressure or
Temperature columns makes the whole upload fail before any persistence
(the store is returned unchanged and no dataset or equipment rows are
created), but the failure is the generic processing-error message, which
carries neither a row index nor a column name. -/
theorem c4_nonnumeric_fails_generic (s : Store) (u : String) (oracle : Nat → Bool)
    (f : CsvFile) (hcsv : strEndsWith f.filename ".csv" = true)
    (hmiss : requiredCols.filter (fun c => decide (c ∉ f.header)) = [])
    (hbad : (column f "Flowrate").all Cell.isNum = false
          ∨ (column f "Pressure").all Cell.isNum = false
          ∨ (column f "Temperature").all Cell.isNum = false) :
    upload s u (some f) oracle
      = ⟨.error (.processing "Error processing CSV: could not convert string to float"),
          s, []⟩ := by
  have hstats : computeStats f
      = .error (.processing "Error processing CSV: could not convert string to float") := by
    unfold computeStats
    rw [if_neg (header_ne_nil_of_required f hmiss), if_pos hmiss]
    rcases hA : colMean (column f "Flowrate") with eA | vA <;>
      rcases hB : colMean (column f "Pressure") with eB | vB <;>
        rcases hC : colMean (column f "Temperature") with eC | vC
    all_goals try rfl
    exfalso
    rcases hbad with hb | hb | hb
    · rw [colMean_error_of_not_all _ hb] at hA
      exact Except.noConfusion hA
    · rw [colMean_error_of_not_all _ hb] at hB
      exact Except.noConfusion hB
    · rw [colMean_error_of_not_all _ hb] at hC
      exact Except.noConfusion hC
  simp only [upload]
  rw [if_pos hcsv, hstats]

theorem c4_nonnumeric_fails_generic_witness :
    upload emptyStore "u" (some csvBadCell) (fun _ => false)
      = ⟨.error (.processing "Error processing CSV: could not convert string to float"),
          emptyStore, []⟩ :=
  c4_nonnumeric_fails_generic emptyStore "u" (fun _ => false) csvBadCell (by decide) (by decide)
    (Or.inl (by decide))

end EquipmentViz
